import Mathlib

/-!
Verification of the housekeeper upgrade protocol of
nestos-kubernetes-deployer.

Shallow embedding of the two CORE components:

* the Node Agent (`housekeeper/daemon/server/server.go`): the `Upgrade`
  remote operation, its version checks (`checkOsVersion`,
  `checkKubeVersion`), the upgrade executors and the stamp-marker write
  (`markNode`);
* the Cluster Reconciler
  (`housekeeper/operator/housekeeper-controller/controllers/update_controller.go`):
  `Reconcile`, `upgradeNodes`, `refreshNodes`, `deleteLabel`,
  `cordonOrUncordonNode`, `drainNode`, `reqInstance` and the upgrade-due
  predicate `checkUpgrade`.

External effects (filesystem existence tests, external command execution,
semantic-version parsing from the k8s.io utility library, Kubernetes API
reads/writes) are modelled as an explicit environment supplied to each
call; every function additionally returns the trace of external actions it
performed, so that properties such as "no upgrade command ran" are
statable.  Go's `panic` (from `version.MustParseSemantic`) is a distinct
outcome, separate from an error return.
-/

namespace Housekeeper

/-- Wire request of the remote upgrade call (`pb.UpgradeRequest`): fields
`OsVersion`, `OsImageUrl`, `KubeVersion`; an empty string means "skip this
step". -/
structure UpgradeRequest where
  OsVersion : String
  OsImageUrl : String
  KubeVersion : String
deriving Repr, DecidableEq

/-- Typed failures of the Node Agent: an external command failed
(`runCmd` / `exec.Command`), a version string failed to parse inside
`Version.Compare`, or `os.MkdirAll` failed. -/
inductive AgentError
  | cmdError (cmd : String)
  | versionParseError (v : String)
  | mkdirError
deriving Repr, DecidableEq

/-- Result of one Agent call: normal success, an error returned to the
caller, or a Go `panic` (raised by `version.MustParseSemantic` on a
malformed string), which crashes the call instead of returning. -/
inductive Outcome
  | ok
  | err (e : AgentError)
  | panicked
deriving Repr, DecidableEq

/-- External actions the Agent can perform, recorded in order of
execution. -/
inductive Step
  | checkOsRelease
  | rebase
  | reboot
  | kubeadmVersionQuery
  | restartKubelet
  | upgradeApply (v : String)
  | upgradeNode
  | mkdirStampDir
  | touchStamp (path : String)
deriving Repr, DecidableEq

/-- Environment of one Agent call: the local filesystem (existence test
`common.IsFileExist`), the outputs of the two version-query commands
(`none` = the command itself failed), the behaviour of the k8s.io
semantic-version library (`mustParseOk s` = whether
`version.MustParseSemantic s` succeeds, otherwise Go panics;
`compareVer a b` = the result of `MustParseSemantic(a).Compare(b)`,
`none` = `b` failed to parse), and the success of each external
command. -/
structure AgentEnv where
  fileExists : String → Bool
  osReleaseVersion : Option String
  kubeadmVersion : Option String
  mustParseOk : String → Bool
  compareVer : String → String → Option Int
  rebaseOk : Bool
  rebootOk : Bool
  kubeletRestartOk : Bool
  upgradeApplyOk : Bool
  upgradeNodeOk : Bool
  mkdirOk : Bool
  touchOk : Bool

/-- Constant `adminFile` of server.go: presence marks a control-plane
node. -/
def adminFile : String := "/etc/kubernetes/admin.conf"

namespace server

/-- Stamp path computed in `Server.Upgrade` (server.go line 61):
`fmt.Sprintf("%s%s%s", "/var/housekeeper/", req.KubeVersion, ".stamp")`. -/
def markFile (v : String) : String := "/var/housekeeper/" ++ v ++ ".stamp"

/-- Model of `upgradeOSVersion` (server.go): run `rpm-ostree rebase` to the new
image, then `systemctl reboot`; first failure is returned. -/
def upgradeOSVersion (env : AgentEnv) (_req : UpgradeRequest) : Outcome × List Step :=
  if env.rebaseOk = false then (.err (.cmdError "rpm-ostree"), [.rebase])
  else if env.rebootOk = false then (.err (.cmdError "reboot"), [.rebase, .reboot])
  else (.ok, [.rebase, .reboot])

/-- Model of `checkOsVersion` (server.go): read the local OS version from
`/etc/os-release`, compare it (as a semantic version) with the requested
one; equal = no-op success, different = run the OS upgrade.  A parse
failure of the local string panics (`MustParseSemantic`); a parse failure
of the requested string is returned as an error. -/
def checkOsVersion (env : AgentEnv) (req : UpgradeRequest) : Outcome × List Step :=
  match env.osReleaseVersion with
  | none => (.err (.cmdError "os-release"), [.checkOsRelease])
  | some osVersion =>
    if env.mustParseOk osVersion = false then (.panicked, [.checkOsRelease])
    else
      match env.compareVer osVersion req.OsVersion with
      | none => (.err (.versionParseError req.OsVersion), [.checkOsRelease])
      | some cmp =>
        if cmp = 0 then (.ok, [.checkOsRelease])
        else
          let r := upgradeOSVersion env req
          (r.1, .checkOsRelease :: r.2)

/-- Model of `isMasterNode` (server.go): a node is a control-plane node iff the
admin credential file exists. -/
def isMasterNode (env : AgentEnv) : Bool := env.fileExists adminFile

/-- Model of `upgradeMasterNodes` (server.go): restart the kubelet, then run the
control-plane `kubeadm upgrade apply` command with the target version. -/
def upgradeMasterNodes (env : AgentEnv) (version : String) : Outcome × List Step :=
  if env.kubeletRestartOk = false then (.err (.cmdError "kubelet-restart"), [.restartKubelet])
  else if env.upgradeApplyOk = false then
    (.err (.cmdError "kubeadm-upgrade-apply"), [.restartKubelet, .upgradeApply version])
  else (.ok, [.restartKubelet, .upgradeApply version])

/-- Model of `upgradeWorkerNodes` (server.go): restart the kubelet, then run the
worker `kubeadm upgrade node` command (no version argument). -/
def upgradeWorkerNodes (env : AgentEnv) : Outcome × List Step :=
  if env.kubeletRestartOk = false then (.err (.cmdError "kubelet-restart"), [.restartKubelet])
  else if env.upgradeNodeOk = false then
    (.err (.cmdError "kubeadm-upgrade-node"), [.restartKubelet, .upgradeNode])
  else (.ok, [.restartKubelet, .upgradeNode])

/-- Model of `upgradeKubeVersion` (server.go): dispatch on node role. -/
def upgradeKubeVersion (env : AgentEnv) (req : UpgradeRequest) : Outcome × List Step :=
  if isMasterNode env then upgradeMasterNodes env req.KubeVersion
  else upgradeWorkerNodes env

/-- Model of `checkKubeVersion` (server.go): query the installed kubeadm version,
compare it (as a semantic version) with the requested one; if the
requested version is strictly greater (compare result `-1`) decline
silently (success, no upgrade command), otherwise run the upgrade.  A
parse failure of the kubeadm output panics (`MustParseSemantic`); a parse
failure of the requested string is returned as an error. -/
def checkKubeVersion (env : AgentEnv) (req : UpgradeRequest) : Outcome × List Step :=
  match env.kubeadmVersion with
  | none => (.err (.cmdError "kubeadm-version"), [.kubeadmVersionQuery])
  | some kubeadmVersion =>
    if env.mustParseOk kubeadmVersion = false then (.panicked, [.kubeadmVersionQuery])
    else
      match env.compareVer kubeadmVersion req.KubeVersion with
      | none => (.err (.versionParseError req.KubeVersion), [.kubeadmVersionQuery])
      | some cmp =>
        if cmp = -1 then (.ok, [.kubeadmVersionQuery])
        else
          let r := upgradeKubeVersion env req
          (r.1, .kubeadmVersionQuery :: r.2)

/-- Model of `markNode` (server.go): create the stamp directory if absent, then
touch the stamp file; the first failure is returned. -/
def markNode (env : AgentEnv) (file : String) : Outcome × List Step :=
  if env.fileExists "/var/housekeeper" = false then
    if env.mkdirOk = false then (.err .mkdirError, [.mkdirStampDir])
    else if env.touchOk = false then
      (.err (.cmdError "touch"), [.mkdirStampDir, .touchStamp file])
    else (.ok, [.mkdirStampDir, .touchStamp file])
  else if env.touchOk = false then (.err (.cmdError "touch"), [.touchStamp file])
  else (.ok, [.touchStamp file])

/-- Model of `Server.Upgrade` (server.go): under the node-wide lock (the call is
modelled sequentially), run the OS step when `OsVersion` is non-empty
(returning its failure if any), then the orchestrator step when
`KubeVersion` is non-empty: short-circuit with success if the stamp file
already exists, otherwise `checkKubeVersion` followed — on its success —
by `markNode`.  Go's `len(s) > 0` is rendered as `s ≠ ""`. -/
def Upgrade (env : AgentEnv) (req : UpgradeRequest) : Outcome × List Step :=
  let osPart : Outcome × List Step :=
    if req.OsVersion ≠ "" then checkOsVersion env req else (.ok, [])
  match osPart with
  | (.ok, tr1) =>
    if req.KubeVersion ≠ "" then
      let mark := markFile req.KubeVersion
      if env.fileExists mark then (.ok, tr1)
      else
        match checkKubeVersion env req with
        | (.ok, tr2) =>
          let r := markNode env mark
          (r.1, tr1 ++ tr2 ++ r.2)
        | (o, tr2) => (o, tr1 ++ tr2)
    else (.ok, tr1)
  | (o, tr1) => (o, tr1)

end server

namespace controllers

/-- Modelled from the spec: the label key `upgrading`
(`constants.LabelUpgrading`, whose defining file `pkg/constants` is not
part of the provided sources); only presence or absence of the key
matters to the controller. -/
def LabelUpgrading : String := "housekeeper.io/upgrading"

/-- Relevant fields of the per-node `Update` custom resource spec
(`upInstance.Spec`). -/
structure UpdateSpec where
  OSVersion : String
  KubeVersion : String
  OSImageURL : String
  EvictPodForce : Bool
deriving Repr, DecidableEq

/-- Zero value of `UpdateSpec`, as produced by a failed `Get`. -/
def zeroUpdateSpec : UpdateSpec := ⟨"", "", "", false⟩

/-- Relevant fields of the `corev1.Node` record: its labels (only
membership of the upgrading key is consulted), the `Unschedulable` flag
and the reported `Status.NodeInfo.OSImage` string. -/
structure Node where
  name : String
  labels : List String
  unschedulable : Bool
  osImage : String
deriving Repr, DecidableEq

/-- Zero value of `Node`, as produced by a failed `Get`. -/
def zeroNode : Node := ⟨"", [], false, ""⟩

/-- External actions of one reconciliation pass, in execution order:
cordon the node, evict its workloads, call the Node Agent's remote
upgrade (with the pushed spec fields), write the node record (label
removal), uncordon the node. -/
inductive RAction
  | cordon
  | drainPods
  | agentApply (kubeVersion : String) (osImageUrl : String) (osVersion : String)
  | updateNodeLabels
  | uncordon
deriving Repr, DecidableEq

/-- Modelled from the spec: the two requeue results `common.RequeueNow`
(immediate retry of the same pass) and `common.RequeueAfter`
(bounded-delay re-check); their defining file `pkg/common` is not part of
the provided sources. -/
inductive CtrlResult
  | requeueNow
  | requeueAfter
deriving Repr, DecidableEq

/-- Typed failures that a reconciliation pass can produce. -/
inductive RErr
  | cordonError
  | drainError
  | agentError
  | updateError
  | uncordonError
deriving Repr, DecidableEq

/-- Environment of one reconciliation pass: the node-local filesystem
seen through `common.IsFileExist` (stamp check), the results of the two
`Get` calls (`none` = error), and the success of each external
operation. -/
structure ReconEnv where
  fileExists : String → Bool
  getUpdate : Option UpdateSpec
  getNode : Option Node
  runCordonOk : Bool
  runDrainOk : Bool
  agentOk : Bool
  updateNodeOk : Bool
  runUncordonOk : Bool

/-- Stamp path computed in `checkUpgrade` (update_controller.go line
207): `fmt.Sprintf("%s%s%s", "/var/housekeeper/", kubeVersionSpec,
".stamp")`. -/
def markFile (v : String) : String := "/var/housekeeper/" ++ v ++ ".stamp"

/-- Model of `reqInstance` (update_controller.go): fetch the `Update` intent and
the node record; on a `Get` error the function logs and returns early,
leaving the not-yet-fetched instances at their zero values (no error is
propagated). -/
def reqInstance (env : ReconEnv) : UpdateSpec × Node :=
  match env.getUpdate with
  | none => (zeroUpdateSpec, zeroNode)
  | some u =>
    match env.getNode with
    | none => (u, zeroNode)
    | some n => (u, n)

/-- Model of `checkUpgrade` (update_controller.go): if an orchestrator-version
target is set, the upgrade is due unless the stamp file exists;
otherwise it is due iff the reported OS image string differs from the
OS-version target (plain string inequality).  Go's
`len(kubeVersionSpec) > 0` is rendered as `kubeVersionSpec ≠ ""`. -/
def checkUpgrade (fileExists : String → Bool) (osVersion osVersionSpec kubeVersionSpec : String) :
    Bool :=
  if kubeVersionSpec ≠ "" then
    if fileExists (markFile kubeVersionSpec) then false else true
  else osVersion != osVersionSpec

/-- Model of `cordonOrUncordonNode` (update_controller.go): no-op success when the
node's `Unschedulable` flag already matches the desired value, otherwise
run the cordon/uncordon helper and wrap its failure. -/
def cordonOrUncordonNode (env : ReconEnv) (desired : Bool) (node : Node) :
    Option RErr × List RAction :=
  if node.unschedulable = desired then (none, [])
  else if desired then
    if env.runCordonOk then (none, [.cordon]) else (some .cordonError, [.cordon])
  else
    if env.runUncordonOk then (none, [.uncordon]) else (some .uncordonError, [.uncordon])

/-- Model of `drainNode` (update_controller.go): cordon, then evict the node's
workloads; the first failure aborts. -/
def drainNode (env : ReconEnv) (node : Node) : Option RErr × List RAction :=
  match cordonOrUncordonNode env true node with
  | (some e, tr) => (some e, tr)
  | (none, tr) =>
    if env.runDrainOk then (none, tr ++ [.drainPods])
    else (some .drainError, tr ++ [.drainPods])

/-- Model of `UpdateReconciler.upgradeNodes` (update_controller.go): only when the
node carries the upgrading label, drain it and call the Node Agent's
remote upgrade with the intent's `KubeVersion`, `OSImageURL` and
`OSVersion`; without the label the pass takes no action and succeeds. -/
def upgradeNodes (env : ReconEnv) (up : UpdateSpec) (node : Node) :
    Option RErr × List RAction :=
  if LabelUpgrading ∈ node.labels then
    match drainNode env node with
    | (some e, tr) => (some e, tr)
    | (none, tr) =>
      if env.agentOk then (none, tr ++ [.agentApply up.KubeVersion up.OSImageURL up.OSVersion])
      else (some .agentError, tr ++ [.agentApply up.KubeVersion up.OSImageURL up.OSVersion])
  else (none, [])

/-- Model of `deleteLabel` (update_controller.go): if the upgrading label is
present, remove it and write the node record back; a write failure is
returned (the caller ignores it). -/
def deleteLabel (env : ReconEnv) (node : Node) : Option RErr × List RAction :=
  if LabelUpgrading ∈ node.labels then
    if env.updateNodeOk then (none, [.updateNodeLabels])
    else (some .updateError, [.updateNodeLabels])
  else (none, [])

/-- Model of `UpdateReconciler.refreshNodes` (update_controller.go): best-effort
label removal (its result is discarded), then uncordon when the node is
marked unschedulable. -/
def refreshNodes (env : ReconEnv) (node : Node) : Option RErr × List RAction :=
  let d := deleteLabel env node
  if node.unschedulable then
    match cordonOrUncordonNode env false node with
    | (some e, tr) => (some e, d.2 ++ tr)
    | (none, tr) => (none, d.2 ++ tr)
  else (none, d.2)

/-- Model of `UpdateReconciler.Reconcile` (update_controller.go): fetch intent and
node, evaluate the upgrade-due predicate; when due, run `upgradeNodes`
and return `RequeueNow` with the error on failure; otherwise run
`refreshNodes` discarding its result; every non-failing path returns
`RequeueAfter` with no error. -/
def Reconcile (env : ReconEnv) : CtrlResult × Option RErr × List RAction :=
  let inst := reqInstance env
  let upgradeCluster :=
    checkUpgrade env.fileExists inst.2.osImage inst.1.OSVersion inst.1.KubeVersion
  if upgradeCluster then
    match upgradeNodes env inst.1 inst.2 with
    | (some e, tr) => (.requeueNow, some e, tr)
    | (none, tr) => (.requeueAfter, none, tr)
  else
    let r := refreshNodes env inst.2
    (.requeueAfter, none, r.2)

end controllers

/-! ### Concrete environments used to evaluate the code on specific inputs -/

/-- Agent environment of the "declined upgrade" scenario: no file exists
(in particular no stamp), the kubeadm version query returns `v1.28.0`,
every version string parses, the semantic comparison reports the
installed version strictly smaller than the requested one (`-1`), and
every external command succeeds. -/
def envDecline : AgentEnv :=
  ⟨fun _ => false, some "v1.28.0", some "v1.28.0", fun _ => true, fun _ _ => some (-1),
   true, true, true, true, true, true, true⟩

/-- Same as `envDecline` except that the `touch` creating the stamp file
fails. -/
def envDeclineTouchFail : AgentEnv :=
  ⟨fun _ => false, some "v1.28.0", some "v1.28.0", fun _ => true, fun _ _ => some (-1),
   true, true, true, true, true, true, false⟩

/-- Request asking only for orchestrator version 1.29.0. -/
def reqKube129 : UpgradeRequest := ⟨"", "", "1.29.0"⟩

/-- Agent environment in which the locally read OS version string does
not parse as a semantic version (`MustParseSemantic` panics on it). -/
def envOsParsePanic : AgentEnv :=
  ⟨fun _ => false, some "NestOS 23.03", some "v1.28.0", fun _ => false, fun _ _ => some 0,
   true, true, true, true, true, true, true⟩

/-- Request asking only for OS version 1.2.3. -/
def reqOs123 : UpgradeRequest := ⟨"1.2.3", "registry/os:1.2.3", ""⟩

/-- Agent environment in which the local OS version reads and parses
fine but comparing it against the requested string fails (the requested
string is malformed). -/
def envReqParseFail : AgentEnv :=
  ⟨fun _ => false, some "v1.0.0", some "v1.28.0", fun _ => true, fun _ _ => none,
   true, true, true, true, true, true, true⟩

/-- Request whose OS version string is malformed. -/
def reqOsBogus : UpgradeRequest := ⟨"bogus", "", ""⟩

/-- Agent environment in which every file (in particular the stamp for
any version) exists and every external command fails: if anything ran,
it would fail. -/
def envStamp : AgentEnv :=
  ⟨fun _ => true, none, none, fun _ => false, fun _ _ => none,
   false, false, false, false, false, false, false⟩

/-- Request asking only for orchestrator version 1.28.0. -/
def reqKube128 : UpgradeRequest := ⟨"", "", "1.28.0"⟩

/-- Reconciler environment in which both `Get` calls fail. -/
def envGetFail : controllers.ReconEnv :=
  ⟨fun _ => false, none, none, true, true, true, true, true⟩

/-- Reconciler environment with an orchestrator target, no stamp, a
labeled node, and a failing cordon operation. -/
def envCordonFail : controllers.ReconEnv :=
  ⟨fun _ => false, some ⟨"", "1.30.0", "", false⟩,
   some ⟨"n1", [controllers.LabelUpgrading], false, "img"⟩,
   false, true, true, true, true⟩

/-- Reconciler environment with an out-of-date OS version target and a
node that does not carry the upgrading label. -/
def envUnlabeled : controllers.ReconEnv :=
  ⟨fun _ => false, some ⟨"2.0", "", "", false⟩,
   some ⟨"n1", [], false, "NestOS 22"⟩, true, true, true, true, true⟩

/-- Reconciler environment whose intent has both version targets empty,
whose node reports a non-empty OS image and carries the upgrading label;
note every file "exists" here, so any stamp consultation would find a
stamp. -/
def envEmptyTargets : controllers.ReconEnv :=
  ⟨fun _ => true, some ⟨"", "", "registry/os:latest", false⟩,
   some ⟨"n1", [controllers.LabelUpgrading], false, "NestOS 22"⟩,
   true, true, true, true, true⟩

/-! ### Helper lemmas -/

/-- The orchestrator short-circuit of `Server.Upgrade`: with no OS
target and the stamp present, the call succeeds without performing any
external action. -/
theorem upgrade_stamp_short_circuit (env : AgentEnv) (req : UpgradeRequest)
    (hos : req.OsVersion = "") (hk : req.KubeVersion ≠ "")
    (hstamp : env.fileExists (server.markFile req.KubeVersion) = true) :
    server.Upgrade env req = (Outcome.ok, []) := by
  unfold server.Upgrade
  simp [hos, hk, hstamp]

/-- The function `checkKubeVersion` always performs at least the kubeadm version
query: its trace is never empty. -/
theorem checkKubeVersion_trace_ne_nil (env : AgentEnv) (req : UpgradeRequest) :
    (server.checkKubeVersion env req).2 ≠ [] := by
  unfold server.checkKubeVersion
  rcases h : env.kubeadmVersion with _ | kv <;> simp only [h]
  · simp
  · split
    · simp
    · split
      · simp
      · split <;> simp

/-- An uncordon attempt (`cordonOrUncordonNode` with desired `false`)
performs at most the uncordon action. -/
theorem cordonOrUncordon_false_trace (env : controllers.ReconEnv) (n : controllers.Node) :
    (controllers.cordonOrUncordonNode env false n).2 = [] ∨
      (controllers.cordonOrUncordonNode env false n).2 = [controllers.RAction.uncordon] := by
  unfold controllers.cordonOrUncordonNode
  split
  · simp
  · cases hu : env.runUncordonOk <;> simp [hu]

/-- When the node does not carry the upgrading label, a `refreshNodes`
call performs at most an uncordon. -/
theorem refreshNodes_trace_no_label (env : controllers.ReconEnv) (n : controllers.Node)
    (h : controllers.LabelUpgrading ∉ n.labels) :
    (controllers.refreshNodes env n).2 = [] ∨
      (controllers.refreshNodes env n).2 = [controllers.RAction.uncordon] := by
  have hd : (controllers.deleteLabel env n).2 = [] := by
    unfold controllers.deleteLabel
    simp [h]
  simp only [controllers.refreshNodes, hd]
  split
  · rcases hc : controllers.cordonOrUncordonNode env false n with ⟨oe, tr⟩
    have htr := cordonOrUncordon_false_trace env n
    rw [hc] at htr
    cases oe <;> simpa using htr
  · simp

/-- Every reconciliation pass either returns the immediate requeue
together with an error, or the bounded-delay requeue with no error. -/
theorem reconcile_shape (env : controllers.ReconEnv) :
    (controllers.Reconcile env).1 = controllers.CtrlResult.requeueNow ∧
        (controllers.Reconcile env).2.1 ≠ none ∨
      (controllers.Reconcile env).1 = controllers.CtrlResult.requeueAfter ∧
        (controllers.Reconcile env).2.1 = none := by
  simp only [controllers.Reconcile]
  split
  · rcases hu : controllers.upgradeNodes env (controllers.reqInstance env).1
      (controllers.reqInstance env).2 with ⟨oe, tr⟩
    cases oe <;> simp
  · simp

/-! ### Claim theorems -/

/-- C1: evaluation of `Server.Upgrade` at the failing input.  Requested
orchestrator version 1.29.0, installed kubeadm v1.28.0 (semantic compare
yields `-1`, so `checkKubeVersion` declines the upgrade without running
any upgrade command), no stamp present, all commands succeed.  The call
returns success and its trace shows the stamp file being created
(`mkdirStampDir`, `touchStamp`) although no upgrade command
(`restartKubelet`, `upgradeApply`, `upgradeNode`) ever ran — the code
writes a stamp for a version whose upgrade commands never ran,
contradicting the claimed invariant. -/
theorem C1_stamp_written_though_upgrade_declined :
    server.Upgrade envDecline reqKube129 =
      (Outcome.ok,
        [Step.kubeadmVersionQuery, Step.mkdirStampDir,
         Step.touchStamp "/var/housekeeper/1.29.0.stamp"]) := by
  decide

/-- C2: idempotent short-circuit.  For every environment and request
with no OS target, a non-empty orchestrator target and the stamp file
for that version already present (as after a first call that wrote it),
`Server.Upgrade` returns success with an empty action trace: no upgrade
command runs. -/
theorem C2_second_call_is_noop (env : AgentEnv) (req : UpgradeRequest)
    (hos : req.OsVersion = "") (hk : req.KubeVersion ≠ "")
    (hstamp : env.fileExists (server.markFile req.KubeVersion) = true) :
    server.Upgrade env req = (Outcome.ok, []) :=
  upgrade_stamp_short_circuit env req hos hk hstamp

/-- C2 witness: in an environment where the stamp for version 1.28.0
exists and every external command would fail if executed, the call still
returns success with an empty trace. -/
theorem C2_second_call_is_noop_witness :
    server.Upgrade envStamp reqKube128 = (Outcome.ok, []) :=
  C2_second_call_is_noop envStamp reqKube128 rfl (by decide) rfl

/-- C3: evaluation of `Server.Upgrade` at the failing input.  Requested
orchestrator version 1.29.0 strictly greater than the installed kubeadm
v1.28.0 and no stamp present: instead of performing no action and
returning success, the code proceeds to `markNode`; with the stamp write
failing, the call returns that error to the caller. -/
theorem C3_decline_is_not_a_noop_success :
    server.Upgrade envDeclineTouchFail reqKube129 =
      (Outcome.err (AgentError.cmdError "touch"),
        [Step.kubeadmVersionQuery, Step.mkdirStampDir,
         Step.touchStamp "/var/housekeeper/1.29.0.stamp"]) := by
  decide

/-- C4 counterexample: with an OS-version target whose locally read OS
version string fails to parse as a semantic version, the call panics
(`MustParseSemantic` crashes) instead of returning a
`VersionParseError`. -/
theorem C4_counterexample_local_parse_panics :
    server.Upgrade envOsParsePanic reqOs123 = (Outcome.panicked, [Step.checkOsRelease]) := by
  decide

/-- C4 amended: for every Apply call with a non-empty OS-version target
whose local OS version read succeeds, a parse failure of the *requested*
version string yields a returned `VersionParseError`, while a parse
failure of the *locally read* version string makes the call panic (crash)
rather than return an error. -/
theorem C4_version_parse_failures (env : AgentEnv) (req : UpgradeRequest) (s : String)
    (hos : req.OsVersion ≠ "") (hread : env.osReleaseVersion = some s) :
    (env.mustParseOk s = false → (server.Upgrade env req).1 = Outcome.panicked) ∧
    (env.mustParseOk s = true → env.compareVer s req.OsVersion = none →
      (server.Upgrade env req).1 = Outcome.err (AgentError.versionParseError req.OsVersion)) := by
  constructor
  · intro hp
    unfold server.Upgrade server.checkOsVersion
    simp [hos, hread, hp]
  · intro hp hc
    unfold server.Upgrade server.checkOsVersion
    simp [hos, hread, hp, hc]

/-- C4 witness: concrete call with OS target "bogus" failing to parse in
the comparison; the theorem yields the returned `VersionParseError`. -/
theorem C4_version_parse_failures_witness :
    (server.Upgrade envReqParseFail reqOsBogus).1 =
      Outcome.err (AgentError.versionParseError "bogus") :=
  (C4_version_parse_failures envReqParseFail reqOsBogus "v1.0.0" (by decide) rfl).2 rfl rfl

/-- C5: characterisation of the upgrade-due predicate `checkUpgrade`:
with an orchestrator-version target the result is true unless the stamp
marker for that version exists; otherwise it is true iff the node's
reported OS version differs from the desired one under plain string
inequality. -/
theorem C5_checkUpgrade_characterisation (fs : String → Bool) (osv oss ks : String) :
    (ks ≠ "" → (controllers.checkUpgrade fs osv oss ks = true ↔
      fs (controllers.markFile ks) = false)) ∧
    (ks = "" → (controllers.checkUpgrade fs osv oss ks = true ↔ osv ≠ oss)) := by
  constructor
  · intro hk
    unfold controllers.checkUpgrade
    cases h : fs (controllers.markFile ks) <;> simp [hk, h]
  · intro hk
    unfold controllers.checkUpgrade
    simp [hk, bne_iff_ne]

/-- C5 witness: with no stamp on disk, a 1.28.0 orchestrator target is
due. -/
theorem C5_checkUpgrade_characterisation_witness :
    controllers.checkUpgrade (fun _ => false) "NestOS 22" "2.0" "1.28.0" = true ↔
      (fun _ : String => false) (controllers.markFile "1.28.0") = false :=
  (C5_checkUpgrade_characterisation (fun _ => false) "NestOS 22" "2.0" "1.28.0").1 (by decide)

/-- C6: a reconciliation pass on a node not carrying the upgrading label
returns no error and performs no cordon, no workload eviction and no
call to the Node Agent (at most an uncordon can occur, on the
not-due/refresh path). -/
theorem C6_unlabeled_node_no_action (env : controllers.ReconEnv)
    (h : controllers.LabelUpgrading ∉ (controllers.reqInstance env).2.labels) :
    (controllers.Reconcile env).2.1 = none ∧
    controllers.RAction.cordon ∉ (controllers.Reconcile env).2.2 ∧
    controllers.RAction.drainPods ∉ (controllers.Reconcile env).2.2 ∧
    (∀ k u o, controllers.RAction.agentApply k u o ∉ (controllers.Reconcile env).2.2) := by
  have hup : controllers.upgradeNodes env (controllers.reqInstance env).1
      (controllers.reqInstance env).2 = (none, []) := by
    unfold controllers.upgradeNodes
    simp [h]
  have key : controllers.Reconcile env = (controllers.CtrlResult.requeueAfter, none, []) ∨
      controllers.Reconcile env =
        (controllers.CtrlResult.requeueAfter, none, [controllers.RAction.uncordon]) := by
    simp only [controllers.Reconcile]
    split
    · rw [hup]
      left
      rfl
    · rcases refreshNodes_trace_no_label env (controllers.reqInstance env).2 h with hr | hr <;>
        rw [hr]
      · left
        rfl
      · right
        rfl
  rcases key with hk | hk <;> rw [hk] <;> simp

/-- C6 witness: a pass with an out-of-date OS target but no upgrading
label on the node reports no error (and, by the theorem, takes none of
the destructive actions). -/
theorem C6_unlabeled_node_no_action_witness :
    (controllers.Reconcile envUnlabeled).2.1 = none :=
  (C6_unlabeled_node_no_action envUnlabeled (by decide)).1

/-- C7 amended: an error propagated from the pass (draining or calling
the Agent) is returned together with the immediate requeue; a pass that
propagates no error returns the bounded-delay requeue; but an error in
fetching the intent/node records is logged and swallowed — the pass
continues with zero-valued records and still returns the bounded-delay
requeue with no error. -/
theorem C7_requeue_semantics (env : controllers.ReconEnv) :
    (∀ e, (controllers.Reconcile env).2.1 = some e →
      (controllers.Reconcile env).1 = controllers.CtrlResult.requeueNow) ∧
    ((controllers.Reconcile env).2.1 = none →
      (controllers.Reconcile env).1 = controllers.CtrlResult.requeueAfter) ∧
    (env.getUpdate = none →
      controllers.Reconcile env = (controllers.CtrlResult.requeueAfter, none, [])) := by
  refine ⟨?_, ?_, ?_⟩
  · intro e he
    rcases reconcile_shape env with ⟨h1, _⟩ | ⟨_, h2⟩
    · exact h1
    · rw [he] at h2
      exact absurd h2 (by simp)
  · intro he
    rcases reconcile_shape env with ⟨_, h2⟩ | ⟨h1, _⟩
    · exact absurd he h2
    · exact h1
  · intro hu
    simp only [controllers.Reconcile, controllers.reqInstance, hu]
    rfl

/-- C7 witness: a cordon failure during a due, labeled pass is returned
with the immediate requeue. -/
theorem C7_requeue_semantics_witness :
    (controllers.Reconcile envCordonFail).1 = controllers.CtrlResult.requeueNow :=
  (C7_requeue_semantics envCordonFail).1 controllers.RErr.cordonError (by decide)

/-- C7 counterexample: with both `Get` calls failing (a state-access
error), the pass does not request an immediate retry: it returns the
bounded-delay requeue and no error, the failure having been logged and
swallowed by `reqInstance`. -/
theorem C7_counterexample_get_error_swallowed :
    controllers.Reconcile envGetFail = (controllers.CtrlResult.requeueAfter, none, []) := by
  decide

/-- C8: the Reconciler and the Node Agent agree on stamp-based
idempotency: both compute the same marker path for a version, the
upgrade-due predicate reports "not due" exactly when the stamp file
exists, and (with no OS target) the Agent's call is a success-with-empty-
trace short-circuit exactly when that same file exists. -/
theorem C8_stamp_checks_agree :
    (∀ v, controllers.markFile v = server.markFile v) ∧
    (∀ (fs : String → Bool) (osv oss v : String), v ≠ "" →
      (controllers.checkUpgrade fs osv oss v = false ↔ fs (server.markFile v) = true)) ∧
    (∀ (env : AgentEnv) (req : UpgradeRequest), req.OsVersion = "" → req.KubeVersion ≠ "" →
      (server.Upgrade env req = (Outcome.ok, []) ↔
        env.fileExists (server.markFile req.KubeVersion) = true)) := by
  refine ⟨fun v => rfl, ?_, ?_⟩
  · intro fs osv oss v hv
    unfold controllers.checkUpgrade
    cases h : fs (server.markFile v) <;>
      simp only [server.markFile] at h <;>
      simp [hv, h, controllers.markFile]
  · intro env req hos hk
    constructor
    · intro hok
      cases hfe : env.fileExists (server.markFile req.KubeVersion)
      · exfalso
        have htr := checkKubeVersion_trace_ne_nil env req
        unfold server.Upgrade at hok
        simp only [hos, hk, hfe] at hok
        rcases hck : server.checkKubeVersion env req with ⟨o, tr⟩
        rw [hck] at hok
        rw [hck] at htr
        simp only [ne_eq, decide_not] at hok
        cases o <;> simp_all
      · rfl
    · intro hfe
      exact upgrade_stamp_short_circuit env req hos hk hfe

/-- C8 witness: with the stamp present, the Agent call is exactly the
empty-trace success. -/
theorem C8_stamp_checks_agree_witness :
    server.Upgrade envStamp reqKube128 = (Outcome.ok, []) ↔
      envStamp.fileExists (server.markFile reqKube128.KubeVersion) = true :=
  C8_stamp_checks_agree.2.2 envStamp reqKube128 rfl (by decide)

/-- C10: with an empty orchestrator target, `checkUpgrade` never
consults the stamp (its value is independent of the filesystem) and, with
the OS target also empty, reports "due" exactly when the node's OS image
string is non-empty; a labeled, schedulable node is then cordoned,
drained, and the Agent is called with empty version fields. -/
theorem C10_empty_targets_due :
    (∀ (fs fs2 : String → Bool) (osv oss : String),
      controllers.checkUpgrade fs osv oss "" = controllers.checkUpgrade fs2 osv oss "") ∧
    (∀ (fs : String → Bool) (osv : String),
      (controllers.checkUpgrade fs osv "" "" = true ↔ osv ≠ "")) ∧
    (∀ (env : controllers.ReconEnv) (u : controllers.UpdateSpec) (n : controllers.Node),
      env.getUpdate = some u → env.getNode = some n →
      u.OSVersion = "" → u.KubeVersion = "" → n.osImage ≠ "" →
      controllers.LabelUpgrading ∈ n.labels → n.unschedulable = false →
      env.runCordonOk = true → env.runDrainOk = true → env.agentOk = true →
      controllers.Reconcile env =
        (controllers.CtrlResult.requeueAfter, none,
          [controllers.RAction.cordon, controllers.RAction.drainPods,
           controllers.RAction.agentApply "" u.OSImageURL ""])) := by
  refine ⟨fun fs fs2 osv oss => rfl, ?_, ?_⟩
  · intro fs osv
    unfold controllers.checkUpgrade
    simp [bne_iff_ne]
  · intro env u n hU hN hu1 hu2 hImg hLab hSched hC hD hA
    simp only [controllers.Reconcile, controllers.reqInstance, controllers.upgradeNodes,
      controllers.drainNode, controllers.cordonOrUncordonNode, controllers.checkUpgrade,
      hU, hN, hu1, hu2, hImg, hLab, hSched, hC, hD, hA]
    simp [hImg, hLab, hSched, bne_iff_ne, hu1, hu2]

/-- C10 witness: intent with both version targets empty, node reporting
a non-empty OS image and carrying the upgrading label (every file
existing, so any stamp lookup would find one): the pass cordons, drains
and calls the Agent with empty version fields. -/
theorem C10_empty_targets_due_witness :
    controllers.Reconcile envEmptyTargets =
      (controllers.CtrlResult.requeueAfter, none,
        [controllers.RAction.cordon, controllers.RAction.drainPods,
         controllers.RAction.agentApply "" "registry/os:latest" ""]) :=
  C10_empty_targets_due.2.2 envEmptyTargets ⟨"", "", "registry/os:latest", false⟩
    ⟨"n1", [controllers.LabelUpgrading], false, "NestOS 22"⟩ rfl rfl rfl rfl (by decide)
    (by decide) rfl rfl rfl rfl

end Housekeeper
